import Mathlib

/-!
Shallow embedding of the match segmentation and player-statistics engine of
HLL_Stats_Tools.  Times are modelled as rational numbers of seconds (the
Python code works on `datetime` values and takes `.total_seconds()`
differences); machine floats are modelled as exact rationals, real-exponent
powers as `Real.rpow`.  The embedded functions keep the names of the Python
functions they translate:

* `hll_stats_tools/sql_pipeline/sql_utils.py`:
  `distributions`, `calc_player_stats`
* `hll_stats_tools/sql_pipeline/ingest_events.py`:
  `parse_match_start`, `close_match`, `build_event_record`,
  `process_event_file`, `create_analysis`
* `hll_stats_tools/legacy_json/analysis_utils.py`:
  `player_total_seconds`, `get_event_per_minute`, `total_events`,
  `is_seeding`, `Apolo_gf`, `Apolo_GF`, `get_gfs`
* `hll_stats_tools/utils/common_utils.py`: `start_end_isostring`
* `hll_stats_tools/legacy_json/json_utils.py`: `only_actual_game_logs`
-/

/-! ### Python-semantics helpers -/

/-- Truncation of a rational toward zero, as Python `int()` applied to a
float number of seconds (`Int` division already truncates toward zero). -/
def pyTrunc (q : ℚ) : ℤ :=
  q.num / (q.den : ℤ)

/-- Decision of whether the first list is an initial segment of the
second (character-level `str.startswith`). -/
def leadsWith : List Char → List Char → Bool
  | [], _ => true
  | _ :: _, [] => false
  | a :: as, b :: bs => a = b && leadsWith as bs

/-- Python `s.startswith(p)`. -/
def strStarts (s p : String) : Bool :=
  leadsWith p.data s.data

/-- Python `s[n:]` for a nonnegative `n`. -/
def strDropN (s : String) (n : ℕ) : String :=
  ⟨s.data.drop n⟩

/-- Python `s[:n]` for a nonnegative `n`. -/
def strTakeN (s : String) (n : ℕ) : String :=
  ⟨s.data.take n⟩

/-- Worker for `pySplit`: scans the character list, cutting at each
occurrence of the (non-empty) separator; the fuel starts at the input
length and bounds the recursion. -/
def splitAux (sep : List Char) : ℕ → List Char → List Char → List (List Char)
  | _, [], acc => [acc.reverse]
  | 0, rest, acc => [acc.reverse ++ rest]
  | fuel + 1, c :: cs, acc =>
    if leadsWith sep (c :: cs) then
      acc.reverse :: splitAux sep fuel ((c :: cs).drop sep.length) []
    else
      splitAux sep fuel cs (c :: acc)

/-- Python `s.split(sep)` for a non-empty separator. -/
def pySplit (s sep : String) : List String :=
  (splitAux sep.data s.data.length s.data []).map (fun l => ⟨l⟩)

/-- Python `s.strip()`. -/
def pyStrip (s : String) : String :=
  ⟨((s.data.dropWhile (fun c => c.isWhitespace)).reverse.dropWhile
      (fun c => c.isWhitespace)).reverse⟩

/-- Python `" ".join(parts)`-style concatenation with a separator. -/
def pyJoin (sep : String) : List String → String
  | [] => ""
  | p :: ps => ps.foldl (fun acc q => acc ++ sep ++ q) p

/-- Decimal digits of a natural number (the first argument is fuel). -/
def natDigitsAux : ℕ → ℕ → List Char
  | 0, _ => []
  | fuel + 1, n =>
    if n < 10 then [Char.ofNat (48 + n)]
    else natDigitsAux fuel (n / 10) ++ [Char.ofNat (48 + n % 10)]

/-- Decimal rendering of a natural number, as Python `f"{n}"`. -/
def natToStr (n : ℕ) : String :=
  ⟨natDigitsAux (n + 1) n⟩

/-- Parse of a decimal integer string as Python `int(s)`: surrounding
whitespace is stripped, an optional sign is allowed, and the rest must be
one or more digits; anything else raises `ValueError`, modelled as `none`. -/
def pyInt (s : String) : Option ℤ :=
  let t := pyStrip s
  let core := if strStarts t ("-") ∨ strStarts t ("+") then strDropN t 1 else t
  if core.data ≠ [] ∧ core.data.all (fun c => c.isDigit) then
    let n : ℕ := core.data.foldl (fun acc c => acc * 10 + (c.toNat - 48)) 0
    some (if strStarts t ("-") then -(n : ℤ) else (n : ℤ))
  else none

/-- Python list slice `l[i:j]` with possibly negative indices. -/
def pySlice {α : Type} (l : List α) (i j : ℤ) : List α :=
  let n : ℤ := l.length
  let i2 := if i < 0 then max 0 (n + i) else min i n
  let j2 := if j < 0 then max 0 (n + j) else min j n
  (l.drop i2.toNat).take (j2 - i2).toNat

/-- Index of the last element satisfying `p`, or `-1` when there is none:
the Python idiom of a loop overwriting an index initialised to `-1`. -/
def lastIndexWhere {α : Type} (p : α → Bool) (l : List α) : ℤ :=
  l.enum.foldl (fun acc x => if p x.2 then (x.1 : ℤ) else acc) (-1)

/-- Substring test, as the Python operator `needle in hay` on strings. -/
def strContains (needle hay : String) : Bool :=
  (List.range (hay.length + 1)).any
    (fun i => decide ((hay.data.drop i).take needle.length = needle.data))

/-- Stable insertion of `x` into a list sorted by `key`: `x` goes after
every element whose key is less than or equal to its own. -/
def insertByTime {α : Type} (key : α → ℚ) (x : α) : List α → List α
  | [] => [x]
  | y :: ys => if key y ≤ key x then y :: insertByTime key x ys else x :: y :: ys

/-- Stable sort by a rational key, as Python `sorted(l, key=...)`. -/
def sortByTime {α : Type} (key : α → ℚ) (l : List α) : List α :=
  l.foldl (fun acc x => insertByTime key x acc) []

/-! ### SQL-pipeline data model (`models.py`, viewed through the ORM) -/

/-- Raw event record, the fields of `events` rows / input JSON objects that
the core reads (`raw`, `creation_time` and the player names are carried
along unchanged and are not modelled). -/
structure SqlEvent where
  event_id : ℕ
  event_time : ℚ
  type : String
  player1_id : Option String
  player2_id : Option String
  weapon : Option String
  content : Option String
  server : Option String
deriving Repr, DecidableEq

/-- Game row of the `games` table as the analysis step sees it: a closed
game with its linked event slice (`game.events`) and linked players
(`game.players`, reduced to their ids). -/
structure SqlGame where
  game_key : String
  start_time : ℚ
  end_time : ℚ
  duration : ℤ
  ended : Bool
  seeding : Bool
  players : List String
  events : List SqlEvent
deriving Repr, DecidableEq

/-- Result tuple of `distributions` (the per-offset distribution maps built
alongside are carried through unchanged by the callers and are not
modelled; the counts and rates are). -/
structure DistResult where
  tot_kills : ℕ
  tot_deaths : ℕ
  tot_team_kills : ℕ
  tot_team_deaths : ℕ
  kpm : ℚ
  dpm : ℚ
deriving Repr, DecidableEq

/-- Translation of `sql_utils.distributions(game, player_id, total_time)`:
kill and team-kill events touching the player are split by whether the
player is the first actor, and KPM/DPM are `0` when `total_time` is `0`. -/
def distributions (game : SqlGame) (player_id : String) (total_time : ℚ) :
    DistResult :=
  let kill_events := game.events.filter
    (fun ev => decide (ev.type = "KILL" ∧
      (ev.player1_id = some player_id ∨ ev.player2_id = some player_id)))
  let tot_kills :=
    (kill_events.filter (fun ev => decide (ev.player1_id = some player_id))).length
  let tot_deaths :=
    (kill_events.filter (fun ev => decide (¬ ev.player1_id = some player_id))).length
  let team_kill_events := game.events.filter
    (fun ev => decide (ev.type = "TEAM KILL" ∧
      (ev.player1_id = some player_id ∨ ev.player2_id = some player_id)))
  let tot_team_kills :=
    (team_kill_events.filter (fun ev => decide (ev.player1_id = some player_id))).length
  let tot_team_deaths :=
    (team_kill_events.filter (fun ev => decide (¬ ev.player1_id = some player_id))).length
  let kpm : ℚ := if total_time = 0 then 0 else (tot_kills : ℚ) / (total_time / 60)
  let dpm : ℚ := if total_time = 0 then 0 else (tot_deaths : ℚ) / (total_time / 60)
  { tot_kills := tot_kills, tot_deaths := tot_deaths,
    tot_team_kills := tot_team_kills, tot_team_deaths := tot_team_deaths,
    kpm := kpm, dpm := dpm }

/-- The player's CONNECTED/DISCONNECTED events in the game's event slice
(`timelimits` in `calc_player_stats`). -/
def timelimits (game : SqlGame) (player_id : String) : List SqlEvent :=
  game.events.filter
    (fun ev => decide ((ev.type = "CONNECTED" ∨ ev.type = "DISCONNECTED") ∧
      ev.player1_id = some player_id))

/-- The time-sorted `(event_time, type)` list (`times` before boundary
correction in `calc_player_stats`). -/
def sortedTimes (game : SqlGame) (player_id : String) : List (ℚ × String) :=
  sortByTime (fun x => x.1)
    ((timelimits game player_id).map (fun ev => (ev.event_time, ev.type)))

/-- Boundary-corrected transition list of `calc_player_stats`: when the
first transition is DISCONNECTED a CONNECTED entry at
`start_time + 5 minutes` is prepended, and when the last transition is
CONNECTED a DISCONNECTED entry at `end_time` is appended. -/
def corrected_times (game : SqlGame) (player_id : String) : List (ℚ × String) :=
  let actual_start_time := game.start_time + 300
  let times0 := sortedTimes game player_id
  let times1 :=
    if times0.head?.map (fun x => x.2) = some ("DISCONNECTED") then
      (actual_start_time, "CONNECTED") :: times0
    else times0
  if times1.getLast?.map (fun x => x.2) = some ("CONNECTED") then
    times1 ++ [(game.end_time, "DISCONNECTED")]
  else times1

/-- Sum of the time differences over ALL adjacent pairs of the list, as
`for start, end in pairwise(times)` in `calc_player_stats`. -/
def adjSum : List (ℚ × String) → ℚ
  | a :: b :: rest => (b.1 - a.1) + adjSum (b :: rest)
  | _ => 0

/-- Per-player statistics record returned by `calc_player_stats` (the
distribution maps, nemesis/victims and weapon Counters carried in the
Python dict are not modelled; the scalar fields are). -/
structure PlayerStats where
  player_id : String
  time_played_seconds : ℚ
  kpm : ℚ
  dpm : ℚ
  tot_kills : ℕ
  tot_deaths : ℕ
  ratio : ℚ
  tot_team_kills : ℕ
  tot_team_deaths : ℕ
deriving Repr, DecidableEq

/-- The Python dict literal built at the end of `calc_player_stats`, for a
given total connected time. -/
def player_stats_record (game : SqlGame) (player_id : String)
    (total_time : ℚ) : PlayerStats :=
  let d := distributions game player_id total_time
  { player_id := player_id,
    time_played_seconds := total_time,
    kpm := d.kpm,
    dpm := d.dpm,
    tot_kills := d.tot_kills,
    tot_deaths := d.tot_deaths,
    ratio := if d.tot_deaths ≠ 0 then (d.tot_kills : ℚ) / (d.tot_deaths : ℚ)
             else (d.tot_kills : ℚ),
    tot_team_kills := d.tot_team_kills,
    tot_team_deaths := d.tot_team_deaths }

/-- Translation of `sql_utils.calc_player_stats(game, player_id)`: with no
connection events the total is `duration - 300`; otherwise the corrected
transition list is summed pairwise, and `none` models the `return None`
taken when that list has odd length. -/
def calc_player_stats (game : SqlGame) (player_id : String) :
    Option PlayerStats :=
  if (timelimits game player_id).length = 0 then
    some (player_stats_record game player_id ((game.duration : ℚ) - 300))
  else if (corrected_times game player_id).length % 2 ≠ 0 then none
  else
    some (player_stats_record game player_id
      (adjSum (corrected_times game player_id)))

/-- Translation of `ingest_events.create_analysis(session, game)` restricted
to its observable output: `none` when the game is skipped (seeding with
`skip_seeding`, or not ended), otherwise the list of per-player stats in
which players whose `calc_player_stats` returned `None` are skipped. -/
def create_analysis (game : SqlGame) (skip_seeding : Bool) :
    Option (List PlayerStats) :=
  if skip_seeding ∧ game.seeding then none
  else if ¬ game.ended then none
  else some (game.players.filterMap (fun pid => calc_player_stats game pid))

/-! ### Game segmenter (`ingest_events.py`) -/

/-- Game row as created and mutated by the segmenter (`parse_match_start`
and `close_match`); nullable columns are `Option`s and carry the column
defaults of `models.Game` at creation. -/
structure GameRec where
  game_key : String
  server : Option String
  game_number : ℕ
  start_time : ℚ
  map : Option String
  mode : Option String
  end_time : Option ℚ
  ended : Bool
  seeding : Bool
  duration : Option ℤ
  allied_score : Option ℤ
  axis_score : Option ℤ
  winner : Option String
deriving Repr, DecidableEq

/-- Lookup in an association list used as a Python dict keyed by the
(possibly `None`) server string. -/
def lookupA {α : Type} (m : List (Option String × α)) (k : Option String) :
    Option α :=
  match m.find? (fun p => p.1 = k) with
  | some p => some p.2
  | none => none

/-- Dict update `m[k] = v`. -/
def insertA {α : Type} (m : List (Option String × α)) (k : Option String)
    (v : α) : List (Option String × α) :=
  match m with
  | [] => [(k, v)]
  | p :: rest => if p.1 = k then (k, v) :: rest else p :: insertA rest k v

/-- Translation of `ingest_events.parse_match_start(ev, ev_time, srv,
last_nums)`: allocates the next per-server sequence number, derives the
game key, and parses map and mode out of `"MATCH START <MAP> <MODE>"` by
splitting on the last space (no space: the mode stays `None`). Returns the
new game together with the updated `last_nums`. -/
def parse_match_start (content : Option String) (ev_time : ℚ)
    (srv : Option String) (last_nums : List (Option String × ℕ)) :
    GameRec × List (Option String × ℕ) :=
  let n := (lookupA last_nums srv).getD 0 + 1
  let key := (match srv with | some s => s | none => "None") ++ "_" ++ natToStr n
  let raw := content.getD ("")
  let mapmode : Option String × Option String :=
    if strStarts raw ("MATCH START (") then
      let after := strDropN raw 12
      let parts := pySplit after (") ")
      if parts.length ≥ 2 then
        (some (pyJoin (" ") parts.dropLast), parts.getLast?)
      else (some after, none)
    else (none, none)
  (⟨key, srv, n, ev_time, mapmode.1, mapmode.2,
    none, false, false, none, none, none, none⟩,
   insertA last_nums srv n)

/-- Score parse attempted by `close_match`:
`ev["content"].split("(")[1][:5].split(" - ")`, then `int()` on the first
two tokens; `none` models the `IndexError`/`ValueError` paths. -/
def parse_score (content : String) : Option (ℤ × ℤ) :=
  match (pySplit content ("(")).get? 1 with
  | none => none
  | some after =>
    let seg := pySplit (strTakeN after 5) (" - ")
    match seg.get? 0 with
    | none => none
    | some t0 =>
      match pyInt t0 with
      | none => none
      | some a =>
        match seg.get? 1 with
        | none => none
        | some t1 =>
          match pyInt t1 with
          | none => none
          | some b => some (a, b)

/-- Translation of `ingest_events.close_match(ev, game, ev_time)`.
`end_time`, `ended` and `duration` are assigned before the score text is
parsed, so a failing parse (`Except.error`) leaves the game mutated that
far and propagates the exception; the mutations happen in the source order
(`allied_score` is assigned before `axis_score` is parsed). -/
def close_match (content : Option String) (ev_time : ℚ) (game : GameRec) :
    Except GameRec GameRec :=
  let g1 : GameRec :=
    { game with
        end_time := some ev_time,
        ended := true,
        duration := some (pyTrunc (ev_time - game.start_time)) }
  match content with
  | none => Except.error g1
  | some c =>
    match (pySplit c ("(")).get? 1 with
    | none => Except.error g1
    | some after =>
      let seg := pySplit (strTakeN after 5) (" - ")
      match seg.get? 0 with
      | none => Except.error g1
      | some t0 =>
        match pyInt t0 with
        | none => Except.error g1
        | some a =>
          let g2 : GameRec := { g1 with allied_score := some a }
          match seg.get? 1 with
          | none => Except.error g2
          | some t1 =>
            match pyInt t1 with
            | none => Except.error g2
            | some b =>
              let g3 : GameRec := { g2 with axis_score := some b }
              Except.ok
                { g3 with
                    winner := some (if b < a then ("allies") else ("axis")) }

/-- Event row queued for insertion by `build_event_record` (identity fields
other than these are copied through verbatim and not modelled). -/
structure EventRecord where
  event_id : ℕ
  event_time : ℚ
  type : String
  server : Option String
  game_key : Option String
deriving Repr, DecidableEq

/-- Translation of `ingest_events.build_event_record(ev, ev_time,
active_games)`: the record's `game_key` is the open game's key when the
event's server has an entry in `active_games`, else `None`. -/
def build_event_record (ev : SqlEvent)
    (active_games : List (Option String × GameRec)) : EventRecord :=
  { event_id := ev.event_id,
    event_time := ev.event_time,
    type := ev.type,
    server := ev.server,
    game_key :=
      match lookupA active_games ev.server with
      | some g => some g.game_key
      | none => none }

/-- Mutable state threaded through `process_event_file`: the per-server
sequence counters, the open-games dict, and the records accumulated for
insertion. -/
structure PState where
  lastNums : List (Option String × ℕ)
  activeGames : List (Option String × GameRec)
  records : List EventRecord
deriving Repr, DecidableEq

/-- Fixed seeding-acknowledgement phrase tested by the segmenter and by the
legacy classifier. -/
def seedPhrase : String := "THANK YOU FOR SEEDING"

/-- Body of the loop of `ingest_events.process_event_file`, for one event:
the seeding test runs first, then the MATCH START / MATCH ENDED branches,
then the event record is appended using the updated open-games dict.
An exception escaping `close_match` aborts processing (`Except.error`);
the database-only side effects (`update_player`, `create_analysis`
persistence, `game_players` insertion) are not modelled here. -/
def processEvent (st : PState) (ev : SqlEvent) : Except PState PState :=
  let srv := ev.server
  let st1 : PState :=
    if (lookupA st.activeGames srv).isSome ∧
        strContains seedPhrase (ev.content.getD ("")) then
      match lookupA st.activeGames srv with
      | some g =>
        { st with activeGames := insertA st.activeGames srv { g with seeding := true } }
      | none => st
    else st
  let next : Except PState PState :=
    if ev.type = "MATCH START" then
      let gn := parse_match_start ev.content ev.event_time srv st1.lastNums
      Except.ok
        { st1 with
            lastNums := gn.2,
            activeGames := insertA st1.activeGames srv gn.1 }
    else if ev.type = "MATCH ENDED" ∧ (lookupA st1.activeGames srv).isSome then
      match lookupA st1.activeGames srv with
      | some g =>
        match close_match ev.content ev.event_time g with
        | Except.ok g2 =>
          Except.ok { st1 with activeGames := insertA st1.activeGames srv g2 }
        | Except.error g2 =>
          Except.error { st1 with activeGames := insertA st1.activeGames srv g2 }
      | none => Except.ok st1
    else Except.ok st1
  match next with
  | Except.error s => Except.error s
  | Except.ok s =>
    Except.ok { s with records := s.records ++ [build_event_record ev s.activeGames] }

/-- Translation of `ingest_events.process_event_file(data, session,
last_nums, active_games)`: events are sorted by event time (the Python
code sorts the ISO-8601 strings, which orders them chronologically) and
folded through `processEvent`; an uncaught exception aborts the fold. -/
def process_event_file (data : List SqlEvent) (st : PState) :
    Except PState PState :=
  (sortByTime (fun ev => ev.event_time) data).foldlM processEvent st

/-! ### Projections used to state properties of segmenter runs -/

/-- State reached by a run, whether it finished normally or was aborted by
an exception. -/
def runState : Except PState PState → PState
  | Except.ok st => st
  | Except.error st => st

/-- Whether the run was aborted by an exception. -/
def runAborted : Except PState PState → Bool
  | Except.ok _ => false
  | Except.error _ => true

/-- The `(event_id, game_key)` pairs of the records a run queued. -/
def runRecordKeys (r : Except PState PState) : List (ℕ × Option String) :=
  (runState r).records.map (fun rec => (rec.event_id, rec.game_key))

/-- The `ended` flag of the open-games entry for a server after a run. -/
def runActiveEnded (r : Except PState PState) (srv : Option String) :
    Option Bool :=
  (lookupA (runState r).activeGames srv).map (fun g => g.ended)

/-- The `seeding` flag of the open-games entry for a server after a run. -/
def runActiveSeeding (r : Except PState PState) (srv : Option String) :
    Option Bool :=
  (lookupA (runState r).activeGames srv).map (fun g => g.seeding)

/-- Winner field of the game produced (or left behind) by `close_match`. -/
def closeWinner : Except GameRec GameRec → Option String
  | Except.ok g => g.winner
  | Except.error g => g.winner

/-- Allied score of the game produced (or left behind) by `close_match`. -/
def closeAllied : Except GameRec GameRec → Option ℤ
  | Except.ok g => g.allied_score
  | Except.error g => g.allied_score

/-- Axis score of the game produced (or left behind) by `close_match`. -/
def closeAxis : Except GameRec GameRec → Option ℤ
  | Except.ok g => g.axis_score
  | Except.error g => g.axis_score

/-- Ended flag of the game produced (or left behind) by `close_match`. -/
def closeEnded : Except GameRec GameRec → Bool
  | Except.ok g => g.ended
  | Except.error g => g.ended

/-- End time of the game produced (or left behind) by `close_match`. -/
def closeEndTime : Except GameRec GameRec → Option ℚ
  | Except.ok g => g.end_time
  | Except.error g => g.end_time

/-- Duration of the game produced (or left behind) by `close_match`. -/
def closeDuration : Except GameRec GameRec → Option ℤ
  | Except.ok g => g.duration
  | Except.error g => g.duration

/-- Whether `close_match` raised (the parse failed after the end fields
were assigned). -/
def closeRaised : Except GameRec GameRec → Bool
  | Except.ok _ => false
  | Except.error _ => true

/-! ### Legacy JSON pipeline (`legacy_json/analysis_utils.py`) -/

/-- One entry of `game["logs"]` with the fields the analysis reads. -/
structure LegacyLog where
  type : String
  event_time : ℚ
  player1_id : Option String
  player2_id : Option String
  content : String
  weapon : String
deriving Repr, DecidableEq

/-- Legacy game-log dictionary: the `date` field and the log list. -/
structure LegacyGame where
  date : ℚ
  logs : List LegacyLog
deriving Repr, DecidableEq

/-- Translation of `common_utils.start_end_isostring(game)`: the sorted
event times of the MATCH START / MATCH ENDED logs (the Python code sorts
the ISO strings, which orders them chronologically). -/
def start_end_isostring (game : LegacyGame) : List ℚ :=
  sortByTime (fun q => q)
    ((game.logs.filter
      (fun l => decide (l.type = "MATCH START" ∨ l.type = "MATCH ENDED"))).map
      (fun l => l.event_time))

/-- Translation of `json_utils.only_actual_game_logs(game)`: the log list
is cut down to `logs[start_idx : end_idx + 1]` where the indices are those
of the last MATCH START and last MATCH ENDED log (`-1` when absent). -/
def only_actual_game_logs (game : LegacyGame) : LegacyGame :=
  let start_idx := lastIndexWhere (fun l => decide (l.type = "MATCH START")) game.logs
  let end_idx := lastIndexWhere (fun l => decide (l.type = "MATCH ENDED")) game.logs
  { game with logs := pySlice game.logs start_idx (end_idx + 1) }

/-- The player's `(type, event_time)` connection list of
`player_total_seconds`, in log order (not re-sorted), drawn from the
trimmed log slice. -/
def player_connections (game : LegacyGame) (player_id : String) :
    List (String × ℚ) :=
  ((only_actual_game_logs game).logs.filter
    (fun l => decide ((l.type = "DISCONNECTED" ∨ l.type = "CONNECTED") ∧
      l.player1_id = some player_id))).map (fun l => (l.type, l.event_time))

/-- Boundary-corrected connection list of `player_total_seconds`, given the
`start, end` unpacking of `start_end_isostring` succeeded: an empty list
becomes a full-presence pair, a leading DISCONNECTED gets a CONNECTED at
the match start prepended, a trailing CONNECTED gets a DISCONNECTED at the
match end appended. -/
def player_connections_corrected (game : LegacyGame) (player_id : String) :
    Option (List (String × ℚ)) :=
  match start_end_isostring game with
  | [s, e] =>
    let pc := player_connections game player_id
    if pc = [] then some [("CONNECTED", s), ("DISCONNECTED", e)]
    else
      let pc1 :=
        if pc.head?.map (fun x => x.1) = some ("DISCONNECTED") then
          ("CONNECTED", s) :: pc
        else pc
      some
        (if pc1.getLast?.map (fun x => x.1) = some ("CONNECTED") then
          pc1 ++ [("DISCONNECTED", e)]
        else pc1)
  | _ => none

/-- Sum of the in-pair time differences over the non-overlapping pairs
`zip(l[::2], l[1::2])` (a trailing unpaired element is dropped, as `zip`
truncates), as in `player_total_seconds`. -/
def pairSum : List (String × ℚ) → ℚ
  | a :: b :: rest => (b.2 - a.2) + pairSum rest
  | _ => 0

/-- Translation of `analysis_utils.player_total_seconds(game, player_id)`;
`none` models the `ValueError` raised when the `start, end` unpacking of
`start_end_isostring` does not see exactly two boundary events. -/
def player_total_seconds (game : LegacyGame) (player_id : String) :
    Option ℚ :=
  (player_connections_corrected game player_id).map pairSum

/-- Event-distribution shape of the legacy pipeline: per player, a mapping
from seconds-since-start to the list of `(counterpart, weapon)` entries. -/
def EventDistr : Type := List (String × List (ℤ × List (String × String)))

/-- Translation of `analysis_utils.total_events(event_distr, player_id)`. -/
def total_events (event_distr : EventDistr) (player_id : String) : ℕ :=
  match event_distr.find? (fun p => p.1 = player_id) with
  | some p => (p.2.map (fun q => q.2.length)).sum
  | none => 0

/-- Python `round(x, 2)` on an exact value: round half to even at two
decimal places. -/
def pyRound2 (q : ℚ) : ℚ :=
  let x := q * 100
  let f : ℤ := ⌊x⌋
  let frac := x - f
  let r : ℤ :=
    if frac < 1/2 then f
    else if 1/2 < frac then f + 1
    else if f % 2 = 0 then f else f + 1
  (r : ℚ) / 100

/-- Translation of `analysis_utils.get_event_per_minute(game, events,
player_id, time_played)`: a falsy `time_played` (`None` or `0`) is
recomputed through `player_total_seconds`, and a zero minute count yields
`0` instead of a division. `none` models an exception escaping the
recomputation. -/
def get_event_per_minute (game : LegacyGame) (events : EventDistr)
    (player_id : String) (time_played : Option ℚ) : Option ℚ :=
  let tp : Option ℚ :=
    if time_played = none ∨ time_played = some 0 then
      player_total_seconds game player_id
    else time_played
  match tp with
  | none => none
  | some t =>
    let all_events := total_events events player_id
    let minutes := t / 60
    some (if minutes ≠ 0 then pyRound2 ((all_events : ℚ) / minutes) else 0)

/-- Count of MESSAGE logs whose content contains the seeding phrase (the
counter of `is_seeding`). -/
def seedLogCount (game : LegacyGame) : ℕ :=
  (game.logs.filter
    (fun l => decide (l.type = "MESSAGE" ∧ strContains seedPhrase l.content = true))).length

/-- Translation of `analysis_utils.is_seeding(game)`. -/
def is_seeding (game : LegacyGame) : Bool :=
  seedLogCount game > 3

/-! ### Weighted score (`Apolo_gf`, `Apolo_GF`) over the reals -/

/-- Translation of `analysis_utils.get_gfs(gfs, player_id)`: dictionary
lookup defaulting to `0`. -/
def get_gfs (gfs : List (String × ℝ)) (player_id : String) : ℝ :=
  match gfs.find? (fun p => p.1 = player_id) with
  | some p => p.2
  | none => 0

/-- Translation of `analysis_utils.Apolo_gf(total_kpm, total_seconds,
time_game, player_id)` with its default exponent `A = 0.45`; the KPM
dictionary is modelled as a total map (its callers populate it for every
player they pass). -/
noncomputable def Apolo_gf (total_kpm : String → ℝ) (total_seconds : ℝ)
    (time_game : ℝ) (player_id : String) : ℝ :=
  (total_seconds / time_game) ^ (0.45 : ℝ) * total_kpm player_id

/-- Translation of `analysis_utils.Apolo_GF(all_victims, total_kills,
player_id, gfs)` with its default exponent `B = 0.65`: in the
`kills > 0` branch the victims' growth factors are looked up through
`get_gfs` (default `0`) while the player's own is a direct dictionary
index, whose `KeyError` is modelled as `none`. -/
noncomputable def Apolo_GF (all_victims : String → List (String × ℕ))
    (total_kills : String → ℕ) (player_id : String)
    (gfs : List (String × ℝ)) : Option ℝ :=
  let kills := total_kills player_id
  if 0 < kills then
    let sum_gf : ℝ :=
      ((all_victims player_id).map
        (fun p => get_gfs gfs p.1 * (p.2 : ℝ))).sum
    match gfs.find? (fun p => p.1 = player_id) with
    | some pg => some ((sum_gf / (kills : ℝ)) ^ (0.65 : ℝ) * pg.2)
    | none => none
  else some 0

/-! ### Spec-side formulas (for refinement statements) -/

/-- Modelled from the spec: per player, a provisional growth factor
`gf = (player_connected_seconds / match_duration)^A × KPM` with fixed
exponent `A = 0.45`. -/
noncomputable def specGrowthFactor (connected match_duration kpm : ℝ) : ℝ :=
  (connected / match_duration) ^ (0.45 : ℝ) * kpm

/-- Modelled from the spec: the secondary score
`score = (mean(gf[victim] × count) over all recorded kills /
total_kills)^B × gf[player]` with fixed exponent `B = 0.65`, and
`score = 0` if `total_kills = 0`. -/
noncomputable def specScore (gfOf : String → ℝ)
    (victims : List (String × ℕ)) (total_kills : ℕ) (gf_player : ℝ) : ℝ :=
  if total_kills = 0 then 0
  else ((victims.map (fun p => gfOf p.1 * (p.2 : ℝ))).sum / (total_kills : ℝ))
    ^ (0.65 : ℝ) * gf_player

/-- Spec-side total of the boundary-corrected transition list: the sum,
over the consecutive `(CONNECTED, DISCONNECTED)` pairs, of
`disconnect_time − connect_time` (gaps between a DISCONNECTED and the
following CONNECTED contribute nothing). -/
def specPairSum : List (ℚ × String) → ℚ
  | a :: b :: rest => (b.1 - a.1) + specPairSum rest
  | _ => 0

/-! ### Projections on analysis results -/

/-- Time-played field of an optional stats record. -/
def statTime (o : Option PlayerStats) : Option ℚ :=
  o.map (fun s => s.time_played_seconds)

/-- KPM field of an optional stats record. -/
def statKpm (o : Option PlayerStats) : Option ℚ :=
  o.map (fun s => s.kpm)

/-- DPM field of an optional stats record. -/
def statDpm (o : Option PlayerStats) : Option ℚ :=
  o.map (fun s => s.dpm)

/-- Count, over a raw event list, of MESSAGE events whose content contains
the seeding phrase. -/
def seedMsgCount (data : List SqlEvent) : ℕ :=
  (data.filter
    (fun ev => decide (ev.type = "MESSAGE" ∧
      strContains seedPhrase (ev.content.getD ("")) = true))).length

/-! ### Concrete fixtures -/

/-- Closed game whose player `p` has two presence intervals separated by a
gap: CONNECTED at 100, DISCONNECTED at 200, CONNECTED at 400, DISCONNECTED
at 600, inside a match running from 0 to 1000. -/
def gapGame : SqlGame :=
  { game_key := "A_1", start_time := 0, end_time := 1000, duration := 1000,
    ended := true, seeding := false, players := ["p"],
    events :=
      [ ⟨1, 100, "CONNECTED", some ("p"), none, none, none, some ("A")⟩,
        ⟨2, 200, "DISCONNECTED", some ("p"), none, none, none, some ("A")⟩,
        ⟨3, 400, "CONNECTED", some ("p"), none, none, none, some ("A")⟩,
        ⟨4, 600, "DISCONNECTED", some ("p"), none, none, none, some ("A")⟩ ] }

/-- The same match and connection history as `gapGame`, as a legacy game
log. -/
def gapLegacyGame : LegacyGame :=
  { date := 0,
    logs :=
      [ ⟨"MATCH START", 0, none, none, "MATCH START FOY WARFARE", ""⟩,
        ⟨"CONNECTED", 100, some ("p"), none, "", ""⟩,
        ⟨"DISCONNECTED", 200, some ("p"), none, "", ""⟩,
        ⟨"CONNECTED", 400, some ("p"), none, "", ""⟩,
        ⟨"DISCONNECTED", 600, some ("p"), none, "", ""⟩,
        ⟨"MATCH ENDED", 1000, none, none, "MATCH ENDED (2 - 1)", ""⟩ ] }

/-- Event stream in which a MATCH START / MATCH ENDED pair on server `A` is
followed by a KILL on the same server before any new MATCH START. -/
def staleStream : List SqlEvent :=
  [ ⟨1, 0, "MATCH START", none, none, none, some ("MATCH START FOY WARFARE"), some ("A")⟩,
    ⟨2, 100, "MATCH ENDED", none, none, none, some ("MATCH ENDED (2 - 1)"), some ("A")⟩,
    ⟨3, 200, "KILL", some ("x"), some ("y"), some ("M1 GARAND"), none, some ("A")⟩ ]

/-- Empty segmenter state (fresh database, no open games). -/
def initState : PState :=
  { lastNums := [], activeGames := [], records := [] }

/-- Event stream with an open game on server `A` and exactly three MESSAGE
events containing the seeding phrase. -/
def threeSeedStream : List SqlEvent :=
  [ ⟨1, 0, "MATCH START", none, none, none, some ("MATCH START FOY WARFARE"), some ("A")⟩,
    ⟨2, 10, "MESSAGE", some ("a"), none, none, some ("THANK YOU FOR SEEDING THE SERVER"), some ("A")⟩,
    ⟨3, 20, "MESSAGE", some ("b"), none, none, some ("THANK YOU FOR SEEDING!"), some ("A")⟩,
    ⟨4, 30, "MESSAGE", some ("c"), none, none, some ("THANK YOU FOR SEEDING"), some ("A")⟩ ]

/-- Freshly opened game record on server `A` (as `parse_match_start` builds
it), used as the game being closed in `close_match` fixtures. -/
def openGameA : GameRec :=
  ⟨"A_1", some ("A"), 1, 0, some ("FOY"), some ("WARFARE"),
   none, false, false, none, none, none, none⟩

/-- Game with an odd corrected transition list for player `p`: CONNECTED at
10, CONNECTED at 20, DISCONNECTED at 30 (no boundary correction applies,
three transitions remain). -/
def oddGame : SqlGame :=
  { game_key := "A_1", start_time := 0, end_time := 1000, duration := 1000,
    ended := true, seeding := false, players := ["p"],
    events :=
      [ ⟨1, 10, "CONNECTED", some ("p"), none, none, none, some ("A")⟩,
        ⟨2, 20, "CONNECTED", some ("p"), none, none, none, some ("A")⟩,
        ⟨3, 30, "DISCONNECTED", some ("p"), none, none, none, some ("A")⟩ ] }

/-- Game whose player `p` has a first transition DISCONNECTED (at 10),
then CONNECTED at 20. -/
def earlyLeaverGame : SqlGame :=
  { game_key := "A_1", start_time := 0, end_time := 1000, duration := 1000,
    ended := true, seeding := false, players := ["p"],
    events :=
      [ ⟨1, 10, "DISCONNECTED", some ("p"), none, none, none, some ("A")⟩,
        ⟨2, 20, "CONNECTED", some ("p"), none, none, none, some ("A")⟩ ] }

/-- Legacy game whose player `p` has the connection pair (DISCONNECTED at
match_start+10s, CONNECTED at match_start+20s). -/
def earlyLeaverLegacy : LegacyGame :=
  { date := 0,
    logs :=
      [ ⟨"MATCH START", 0, none, none, "MATCH START FOY WARFARE", ""⟩,
        ⟨"DISCONNECTED", 10, some ("p"), none, "", ""⟩,
        ⟨"CONNECTED", 20, some ("p"), none, "", ""⟩,
        ⟨"MATCH ENDED", 1000, none, none, "MATCH ENDED (2 - 1)", ""⟩ ] }

/-- Legacy game whose player `p` connects and disconnects at the same
instant, so the computed connected time is `0`. -/
def zeroTimeLegacy : LegacyGame :=
  { date := 0,
    logs :=
      [ ⟨"MATCH START", 0, none, none, "MATCH START FOY WARFARE", ""⟩,
        ⟨"CONNECTED", 50, some ("p"), none, "", ""⟩,
        ⟨"DISCONNECTED", 50, some ("p"), none, "", ""⟩,
        ⟨"MATCH ENDED", 100, none, none, "MATCH ENDED (2 - 1)", ""⟩ ] }

/-- Ended game of duration 100 seconds (< 300) in which player `p` has no
CONNECTED/DISCONNECTED events but one kill and one death. -/
def shortGame : SqlGame :=
  { game_key := "A_1", start_time := 0, end_time := 100, duration := 100,
    ended := true, seeding := false, players := ["p", "q"],
    events :=
      [ ⟨1, 10, "KILL", some ("p"), some ("q"), some ("M1 GARAND"), none, some ("A")⟩,
        ⟨2, 20, "KILL", some ("q"), some ("p"), some ("KARABINER 98K"), none, some ("A")⟩ ] }

/-- Growth-factor dictionary fixture. -/
noncomputable def gfsFix : List (String × ℝ) :=
  [("p", 1), ("q", 2)]

/-- Victim-count dictionary fixture: every player's victims are `q` twice. -/
def victimsFix : String → List (String × ℕ) :=
  fun _ => [("q", 2)]

/-- Segmenter state with one open (fresh) game on server `A`. -/
def seededState : PState :=
  { lastNums := [(some ("A"), 1)],
    activeGames := [(some ("A"), openGameA)],
    records := [] }

/-- MESSAGE event on server `A` whose content contains the seeding
phrase. -/
def seedMsgEvent : SqlEvent :=
  ⟨9, 50, "MESSAGE", some ("a"), none, none, some ("THANK YOU FOR SEEDING"), some ("A")⟩

/-! ### Claim theorems -/

/-- C1: For every closed Game and every player whose boundary-corrected
CONNECTED/DISCONNECTED transition list has even length, the computed total
connected seconds is claimed to equal the sum over the consecutive
(CONNECTED, DISCONNECTED) pairs, gaps contributing nothing.  The SQL
pipeline's `calc_player_stats` instead sums over ALL adjacent pairs
(`itertools.pairwise`), so a DISCONNECTED→CONNECTED gap is counted: on a
game with intervals [100,200] and [400,600] it reports 500 seconds where
the pair sum is 300 (as the legacy `player_total_seconds`, which pairs the
list two by two, computes). -/
theorem C1_sql_total_includes_gaps :
    statTime (calc_player_stats gapGame ("p")) = some 500 ∧
    specPairSum (corrected_times gapGame ("p")) = 300 ∧
    player_total_seconds gapLegacyGame ("p") = some 300 ∧
    (500 : ℚ) ≠ 300 := by
  refine ⟨?_, ?_, ?_, by norm_num⟩
  · simp +decide [statTime, calc_player_stats, player_stats_record,
      timelimits, corrected_times, sortedTimes, sortByTime, insertByTime,
      adjSum, distributions, gapGame]
    norm_num
  · simp +decide [corrected_times, sortedTimes, timelimits, sortByTime,
      insertByTime, specPairSum, gapGame]
    norm_num
  · simp +decide [player_total_seconds, player_connections_corrected,
      player_connections, only_actual_game_logs, start_end_isostring,
      lastIndexWhere, pySlice, sortByTime, insertByTime, pairSum,
      gapLegacyGame]
    norm_num

/-- C2: a MATCH ENDED event closes the open game (its `ended` flag is set)
but the segmenter never removes the entry from `active_games`, so a KILL
arriving after the MATCH ENDED and before any new MATCH START is still
assigned the closed game's `game_key` — the server does not return to
Idle, refuting the claimed bounding of a Game's event slice. -/
theorem C2_closed_game_keeps_receiving_events :
    runAborted (process_event_file staleStream initState) = false ∧
    runRecordKeys (process_event_file staleStream initState) =
      [(1, some ("A_1")), (2, some ("A_1")), (3, some ("A_1"))] ∧
    runActiveEnded (process_event_file staleStream initState) (some ("A")) =
      some true := by decide

/-- C4 counterexample: in the SQL segmenter a game is marked
`seeding = true` as soon as one event containing the phrase arrives — a
stream with exactly 3 seeding MESSAGE events already has the open game
marked seeding, contradicting the claimed strict `> 3` threshold. -/
theorem C4_three_messages_mark_seeding :
    seedMsgCount threeSeedStream = 3 ∧
    runActiveSeeding (process_event_file threeSeedStream initState)
      (some ("A")) = some true := by decide

/-- C5 counterexample: a MATCH ENDED with score text `(3 - 3)` parses to a
tie, and `close_match` assigns `winner = "axis"` rather than leaving the
game with no winner. -/
theorem C5_tie_yields_winner_axis :
    closeAllied (close_match (some ("MATCH ENDED (3 - 3)")) 1000 openGameA) =
      some 3 ∧
    closeAxis (close_match (some ("MATCH ENDED (3 - 3)")) 1000 openGameA) =
      some 3 ∧
    closeWinner (close_match (some ("MATCH ENDED (3 - 3)")) 1000 openGameA) =
      some ("axis") ∧
    closeRaised (close_match (some ("MATCH ENDED (3 - 3)")) 1000 openGameA) =
      false := by decide

/-- C6 counterexample: on a MATCH ENDED whose content has no parsable
score segment, `close_match` raises (an uncaught IndexError escapes), so
processing of the stream does not continue. -/
theorem C6_unparsable_score_raises :
    closeRaised (close_match (some ("MATCH ENDED")) 100 openGameA) = true := by
  decide

/-- C8 counterexample: for the legacy `player_total_seconds`, a player
whose first transition is DISCONNECTED gets the synthesized CONNECTED at
the MATCH START time itself (time 0 here), not at start_time + 300: the
credited presence begins at the match start. -/
theorem C8_legacy_synthesizes_at_start :
    player_connections_corrected earlyLeaverLegacy ("p") =
      some [("CONNECTED", 0), ("DISCONNECTED", 10),
            ("CONNECTED", 20), ("DISCONNECTED", 1000)] ∧
    player_total_seconds earlyLeaverLegacy ("p") = some 990 ∧
    (0 : ℚ) ≠ earlyLeaverLegacy.date + 300 := by
  refine ⟨by decide, ?_, by norm_num [earlyLeaverLegacy]⟩
  simp +decide [player_total_seconds, player_connections_corrected,
    player_connections, only_actual_game_logs, start_end_isostring,
    lastIndexWhere, pySlice, sortByTime, insertByTime, pairSum,
    earlyLeaverLegacy]
  norm_num

/-- Auxiliary: a stats record produced by `calc_player_stats` carries the
player id it was computed for. -/
theorem calc_player_stats_pid (g : SqlGame) (q : String) (s : PlayerStats)
    (h : calc_player_stats g q = some s) : s.player_id = q := by
  unfold calc_player_stats at h
  split at h
  · simp only [Option.some.injEq] at h
    subst h
    rfl
  · split at h
    · exact absurd h (by simp)
    · simp only [Option.some.injEq] at h
      subst h
      rfl

/-- C3: the weighted score is computed in two stages — a per-player growth
factor `gf = (connected_seconds / match_duration)^0.45 × KPM`, and then
`score = (sum of gf[victim] × count over recorded kills / total_kills)^0.65
× gf[player]` with `score = 0` when `total_kills = 0`; `Apolo_gf` and
`Apolo_GF` compute exactly the spec formulas (given the player is present
in the growth-factor dictionary, which its caller guarantees). -/
theorem C3_weighted_score_two_stages :
    (∀ (total_kpm : String → ℝ) (total_seconds time_game : ℝ)
      (player_id : String),
      Apolo_gf total_kpm total_seconds time_game player_id =
        specGrowthFactor total_seconds time_game (total_kpm player_id)) ∧
    (∀ (all_victims : String → List (String × ℕ)) (total_kills : String → ℕ)
      (player_id : String) (gfs : List (String × ℝ)) (pg : String × ℝ),
      gfs.find? (fun p => p.1 = player_id) = some pg →
      Apolo_GF all_victims total_kills player_id gfs =
        some (specScore (get_gfs gfs) (all_victims player_id)
          (total_kills player_id) pg.2)) := by
  constructor
  · intro total_kpm total_seconds time_game player_id
    rfl
  · intro all_victims total_kills player_id gfs pg h
    unfold Apolo_GF specScore
    rcases Nat.eq_zero_or_pos (total_kills player_id) with h0 | h0
    · simp [h0]
    · rw [if_pos h0, if_neg (Nat.pos_iff_ne_zero.mp h0), h]

/-- Witness for C3 at a concrete growth-factor dictionary. -/
theorem C3_weighted_score_two_stages_w :
    Apolo_gf (fun _ => (2 : ℝ)) 900 1800 ("p") =
      specGrowthFactor 900 1800 2 ∧
    Apolo_GF victimsFix (fun _ => 2) ("p") gfsFix =
      some (specScore (get_gfs gfsFix) (victimsFix ("p")) 2 1) :=
  ⟨C3_weighted_score_two_stages.1 (fun _ => 2) 900 1800 ("p"),
   C3_weighted_score_two_stages.2 victimsFix (fun _ => 2) ("p") gfsFix
     ("p", 1) rfl⟩

/-- C7: when the boundary-corrected transition list has odd length,
`calc_player_stats` returns the sentinel `None` instead of raising, and
`create_analysis` skips that player, so no stats record for the player
appears in the game's analysis. -/
theorem C7_odd_transitions_excluded (g : SqlGame) (pid : String)
    (h : (corrected_times g pid).length % 2 = 1) :
    calc_player_stats g pid = none ∧
    (∀ l, create_analysis g true = some l → ∀ s ∈ l, s.player_id ≠ pid) := by
  have hnone : calc_player_stats g pid = none := by
    unfold calc_player_stats
    by_cases htl : (timelimits g pid).length = 0
    · exfalso
      have : corrected_times g pid = [] := by
        have : timelimits g pid = [] := List.length_eq_zero.mp htl
        simp [corrected_times, sortedTimes, this, sortByTime]
      rw [this] at h
      simp at h
    · rw [if_neg htl, if_pos (by omega)]
  refine ⟨hnone, ?_⟩
  intro l hl s hs
  unfold create_analysis at hl
  split at hl
  · exact absurd hl (by simp)
  · split at hl
    · exact absurd hl (by simp)
    · simp only [Option.some.injEq] at hl
      subst hl
      rcases List.mem_filterMap.mp hs with ⟨q, _, hq⟩
      intro hcontra
      rw [calc_player_stats_pid g q s hq] at hcontra
      subst hcontra
      rw [hnone] at hq
      exact Option.noConfusion hq

/-- Witness for C7 on a game with three transitions (CONNECTED, CONNECTED,
DISCONNECTED) for player `p`. -/
theorem C7_odd_transitions_excluded_w :
    calc_player_stats oddGame ("p") = none ∧
    (∀ l, create_analysis oddGame true = some l →
      ∀ s ∈ l, s.player_id ≠ "p") :=
  C7_odd_transitions_excluded oddGame ("p") (by decide)

/-- C9: a player with zero connected seconds gets KPM and DPM `0` in both
pipelines — `distributions` returns `0` for both rates when `total_time`
is `0`, and the legacy `get_event_per_minute` returns `0` when the played
time it is given (and recomputes) is `0` — with no division performed. -/
theorem C9_zero_connected_zero_rates :
    (∀ (g : SqlGame) (pid : String),
      (distributions g pid 0).kpm = 0 ∧ (distributions g pid 0).dpm = 0) ∧
    (∀ (lg : LegacyGame) (events : EventDistr) (pid : String),
      player_total_seconds lg pid = some 0 →
      get_event_per_minute lg events pid (player_total_seconds lg pid) =
        some 0) := by
  constructor
  · intro g pid
    constructor <;> simp [distributions]
  · intro lg events pid h
    rw [h]
    unfold get_event_per_minute
    simp [h]

/-- Auxiliary evaluation: the `zeroTimeLegacy` fixture gives player `p`
zero connected seconds. -/
theorem zeroTimeLegacy_pts :
    player_total_seconds zeroTimeLegacy ("p") = some 0 := by
  simp +decide [player_total_seconds, player_connections_corrected,
    player_connections, only_actual_game_logs, start_end_isostring,
    lastIndexWhere, pySlice, sortByTime, insertByTime, pairSum,
    zeroTimeLegacy]

/-- Witness for C9: a player connected and disconnected at the same
instant has `0` connected seconds and rate `0`. -/
theorem C9_zero_connected_zero_rates_w :
    ((distributions gapGame ("p") 0).kpm = 0 ∧
      (distributions gapGame ("p") 0).dpm = 0) ∧
    get_event_per_minute zeroTimeLegacy [] ("p")
      (player_total_seconds zeroTimeLegacy ("p")) = some 0 :=
  ⟨C9_zero_connected_zero_rates.1 gapGame ("p"),
   C9_zero_connected_zero_rates.2 zeroTimeLegacy [] ("p")
     zeroTimeLegacy_pts⟩

/-- C10: in an ended game shorter than 300 seconds, a player with no
CONNECTED/DISCONNECTED events is assigned `time_played = duration − 300`,
which is negative, so their KPM (resp. DPM) is negative whenever their
kill (resp. death) count is positive. -/
theorem C10_short_game_negative_rates (g : SqlGame) (pid : String)
    (_hend : g.ended = true) (htl : timelimits g pid = [])
    (hdur : g.duration < 300) :
    statTime (calc_player_stats g pid) = some ((g.duration : ℚ) - 300) ∧
    ((g.duration : ℚ) - 300) < 0 ∧
    statKpm (calc_player_stats g pid) =
      some ((distributions g pid ((g.duration : ℚ) - 300)).kpm) ∧
    statDpm (calc_player_stats g pid) =
      some ((distributions g pid ((g.duration : ℚ) - 300)).dpm) ∧
    (0 < (distributions g pid ((g.duration : ℚ) - 300)).tot_kills →
      (distributions g pid ((g.duration : ℚ) - 300)).kpm < 0) ∧
    (0 < (distributions g pid ((g.duration : ℚ) - 300)).tot_deaths →
      (distributions g pid ((g.duration : ℚ) - 300)).dpm < 0) := by
  have hneg : ((g.duration : ℚ) - 300) < 0 := by
    have : (g.duration : ℚ) < 300 := by exact_mod_cast hdur
    linarith
  have hne : ((g.duration : ℚ) - 300) ≠ 0 := ne_of_lt hneg
  have hcalc : calc_player_stats g pid =
      some (player_stats_record g pid ((g.duration : ℚ) - 300)) := by
    unfold calc_player_stats
    rw [if_pos (by simp [htl])]
  have hdiv : ((g.duration : ℚ) - 300) / 60 < 0 := by
    apply div_neg_of_neg_of_pos hneg
    norm_num
  refine ⟨by simp [hcalc, statTime, player_stats_record], hneg,
    by simp [hcalc, statKpm, player_stats_record],
    by simp [hcalc, statDpm, player_stats_record], ?_, ?_⟩
  · intro hk
    have : (distributions g pid ((g.duration : ℚ) - 300)).kpm =
        ((distributions g pid ((g.duration : ℚ) - 300)).tot_kills : ℚ) /
          (((g.duration : ℚ) - 300) / 60) := by
      simp [distributions, hne]
    rw [this]
    exact div_neg_of_pos_of_neg (by exact_mod_cast hk) hdiv
  · intro hd
    have : (distributions g pid ((g.duration : ℚ) - 300)).dpm =
        ((distributions g pid ((g.duration : ℚ) - 300)).tot_deaths : ℚ) /
          (((g.duration : ℚ) - 300) / 60) := by
      simp [distributions, hne]
    rw [this]
    exact div_neg_of_pos_of_neg (by exact_mod_cast hd) hdiv

/-- Witness for C10 on an ended 100-second game where player `p` has one
kill and one death and no connection events. -/
theorem C10_short_game_negative_rates_w :
    statTime (calc_player_stats shortGame ("p")) =
      some ((shortGame.duration : ℚ) - 300) ∧
    ((shortGame.duration : ℚ) - 300) < 0 ∧
    statKpm (calc_player_stats shortGame ("p")) =
      some ((distributions shortGame ("p")
        ((shortGame.duration : ℚ) - 300)).kpm) ∧
    statDpm (calc_player_stats shortGame ("p")) =
      some ((distributions shortGame ("p")
        ((shortGame.duration : ℚ) - 300)).dpm) ∧
    (0 < (distributions shortGame ("p")
        ((shortGame.duration : ℚ) - 300)).tot_kills →
      (distributions shortGame ("p")
        ((shortGame.duration : ℚ) - 300)).kpm < 0) ∧
    (0 < (distributions shortGame ("p")
        ((shortGame.duration : ℚ) - 300)).tot_deaths →
      (distributions shortGame ("p")
        ((shortGame.duration : ℚ) - 300)).dpm < 0) :=
  C10_short_game_negative_rates shortGame ("p") rfl (by decide) (by decide)

/-- C4 (amended): the legacy classifier `is_seeding` marks a game seeding
exactly when strictly more than 3 MESSAGE logs contain the seeding phrase,
while the SQL segmenter marks the open game `seeding = true` as soon as a
single event containing the phrase arrives for a server with an open game
— the `> 3` counter threshold exists only in the legacy pipeline. -/
theorem C4_seeding_threshold_amended :
    (∀ g : LegacyGame, is_seeding g = decide (seedLogCount g > 3)) ∧
    (∀ (st : PState) (ev : SqlEvent) (g : GameRec),
      ev.type = "MESSAGE" →
      lookupA st.activeGames ev.server = some g →
      strContains seedPhrase (ev.content.getD ("")) = true →
      processEvent st ev =
        Except.ok
          { lastNums := st.lastNums,
            activeGames :=
              insertA st.activeGames ev.server { g with seeding := true },
            records := st.records ++
              [build_event_record ev
                (insertA st.activeGames ev.server
                  { g with seeding := true })] }) := by
  constructor
  · intro g
    rfl
  · intro st ev g h1 h2 h3
    simp [processEvent, h1, h2, h3]

/-- Witness for C4 on a MESSAGE event with the phrase arriving while a
game is open on server `A`. -/
theorem C4_seeding_threshold_amended_w :
    is_seeding gapLegacyGame = decide (seedLogCount gapLegacyGame > 3) ∧
    processEvent seededState seedMsgEvent =
      Except.ok
        { lastNums := seededState.lastNums,
          activeGames :=
            insertA seededState.activeGames seedMsgEvent.server
              { openGameA with seeding := true },
          records := seededState.records ++
            [build_event_record seedMsgEvent
              (insertA seededState.activeGames seedMsgEvent.server
                { openGameA with seeding := true })] } :=
  ⟨C4_seeding_threshold_amended.1 gapLegacyGame,
   C4_seeding_threshold_amended.2 seededState seedMsgEvent openGameA
     rfl rfl (by decide)⟩

/-- C5 (amended): when the score text parses to `(allied, axis)`,
`close_match` closes the game with those scores and sets
`winner = "allies"` exactly when `allied > axis` and `winner = "axis"`
otherwise — a tie therefore yields `winner = "axis"`, not an absent
winner. -/
theorem C5_winner_amended (content : String) (t : ℚ) (g : GameRec)
    (a b : ℤ) (h : parse_score content = some (a, b)) :
    close_match (some content) t g =
      Except.ok
        { g with
            end_time := some t,
            ended := true,
            duration := some (pyTrunc (t - g.start_time)),
            allied_score := some a,
            axis_score := some b,
            winner := some (if b < a then ("allies") else ("axis")) } := by
  unfold parse_score at h
  unfold close_match
  cases e1 : (pySplit content ("(")).get? 1 with
  | none =>
    simp only [e1] at h
    exact Option.noConfusion h
  | some after =>
    simp only [e1] at h
    cases e2 : (pySplit (strTakeN after 5) (" - ")).get? 0 with
    | none =>
      simp only [e2] at h
      exact Option.noConfusion h
    | some t0 =>
      simp only [e2] at h
      cases e3 : pyInt t0 with
      | none =>
        simp only [e3] at h
        exact Option.noConfusion h
      | some a2 =>
        simp only [e3] at h
        cases e4 : (pySplit (strTakeN after 5) (" - ")).get? 1 with
        | none =>
          simp only [e4] at h
          exact Option.noConfusion h
        | some t1 =>
          simp only [e4] at h
          cases e5 : pyInt t1 with
          | none =>
            simp only [e5] at h
            exact Option.noConfusion h
          | some b2 =>
            simp only [e5, Option.some.injEq, Prod.mk.injEq] at h
            obtain ⟨ha, hb⟩ := h
            subst ha
            subst hb
            simp only [e1, e2, e3, e4, e5]

/-- Witness for C5 on the score text `(2 - 1)`. -/
theorem C5_winner_amended_w :
    close_match (some ("MATCH ENDED (2 - 1)")) 100 openGameA =
      Except.ok
        { openGameA with
            end_time := some 100,
            ended := true,
            duration := some (pyTrunc ((100 : ℚ) - openGameA.start_time)),
            allied_score := some 2,
            axis_score := some 1,
            winner := some (if (1 : ℤ) < 2 then ("allies") else ("axis")) } :=
  C5_winner_amended ("MATCH ENDED (2 - 1)") 100 openGameA 2 1 (by decide)

/-- C6 (amended): on a MATCH ENDED whose content has no parsable score
segment, `close_match` assigns `end_time`, `ended` and `duration` and then
raises an uncaught exception, so the axis score and winner remain unset
and processing of the stream aborts instead of continuing. -/
theorem C6_close_amended (content : String) (t : ℚ) (g : GameRec)
    (h : parse_score content = none) (hw : g.winner = none)
    (hx : g.axis_score = none) :
    closeRaised (close_match (some content) t g) = true ∧
    closeEnded (close_match (some content) t g) = true ∧
    closeEndTime (close_match (some content) t g) = some t ∧
    closeDuration (close_match (some content) t g) =
      some (pyTrunc (t - g.start_time)) ∧
    closeWinner (close_match (some content) t g) = none ∧
    closeAxis (close_match (some content) t g) = none := by
  unfold parse_score at h
  unfold close_match
  cases e1 : (pySplit content ("(")).get? 1 with
  | none =>
    simp only [e1, closeRaised, closeEnded, closeEndTime, closeDuration,
      closeWinner, closeAxis]
    exact ⟨by trivial, by trivial, by trivial, by trivial, hw, hx⟩
  | some after =>
    simp only [e1] at h
    cases e2 : (pySplit (strTakeN after 5) (" - ")).get? 0 with
    | none =>
      simp only [e1, e2, closeRaised, closeEnded, closeEndTime,
        closeDuration, closeWinner, closeAxis]
      exact ⟨by trivial, by trivial, by trivial, by trivial, hw, hx⟩
    | some t0 =>
      simp only [e2] at h
      cases e3 : pyInt t0 with
      | none =>
        simp only [e1, e2, e3, closeRaised, closeEnded, closeEndTime,
          closeDuration, closeWinner, closeAxis]
        exact ⟨by trivial, by trivial, by trivial, by trivial, hw, hx⟩
      | some a2 =>
        simp only [e3] at h
        cases e4 : (pySplit (strTakeN after 5) (" - ")).get? 1 with
        | none =>
          simp only [e1, e2, e3, e4, closeRaised, closeEnded, closeEndTime,
            closeDuration, closeWinner, closeAxis]
          exact ⟨by trivial, by trivial, by trivial, by trivial, hw, hx⟩
        | some t1 =>
          simp only [e4] at h
          cases e5 : pyInt t1 with
          | none =>
            simp only [e1, e2, e3, e4, e5, closeRaised, closeEnded,
              closeEndTime, closeDuration, closeWinner, closeAxis]
            exact ⟨by trivial, by trivial, by trivial, by trivial, hw, hx⟩
          | some b2 =>
            simp only [e5] at h
            exact Option.noConfusion h

/-- Witness for C6 on the score-free content `"MATCH ENDED"`. -/
theorem C6_close_amended_w :
    closeRaised (close_match (some ("MATCH ENDED")) 100 openGameA) = true ∧
    closeEnded (close_match (some ("MATCH ENDED")) 100 openGameA) = true ∧
    closeEndTime (close_match (some ("MATCH ENDED")) 100 openGameA) =
      some 100 ∧
    closeDuration (close_match (some ("MATCH ENDED")) 100 openGameA) =
      some (pyTrunc ((100 : ℚ) - openGameA.start_time)) ∧
    closeWinner (close_match (some ("MATCH ENDED")) 100 openGameA) = none ∧
    closeAxis (close_match (some ("MATCH ENDED")) 100 openGameA) = none :=
  C6_close_amended ("MATCH ENDED") 100 openGameA (by decide) rfl rfl

/-- C8 (amended): when a player's first transition is DISCONNECTED, the
SQL pipeline synthesizes the CONNECTED entry at `start_time + 300`
seconds, while the legacy pipeline synthesizes it at the match start time
itself. -/
theorem C8_first_transition_amended :
    (∀ (g : SqlGame) (pid : String),
      (sortedTimes g pid).head?.map (fun x => x.2) = some ("DISCONNECTED") →
      (corrected_times g pid).head? =
        some (g.start_time + 300, "CONNECTED")) ∧
    (∀ (lg : LegacyGame) (pid : String) (s e : ℚ),
      start_end_isostring lg = [s, e] →
      (player_connections lg pid).head?.map (fun x => x.1) =
        some ("DISCONNECTED") →
      (player_connections_corrected lg pid).map (fun l => l.head?) =
        some (some (("CONNECTED", s)))) := by
  constructor
  · intro g pid h
    simp only [corrected_times]
    rw [if_pos h]
    split
    · simp
    · simp
  · intro lg pid s e hse hhead
    have hne : ¬ player_connections lg pid = [] := by
      intro hnil
      rw [hnil] at hhead
      simp at hhead
    simp only [player_connections_corrected, hse]
    rw [if_neg hne, if_pos hhead]
    split
    · simp
    · simp

/-- Witness for C8 on the (DISCONNECTED at +10, CONNECTED at +20)
fixtures of both pipelines. -/
theorem C8_first_transition_amended_w :
    (corrected_times earlyLeaverGame ("p")).head? =
      some (earlyLeaverGame.start_time + 300, "CONNECTED") ∧
    (player_connections_corrected earlyLeaverLegacy ("p")).map
      (fun l => l.head?) = some (some (("CONNECTED", 0))) :=
  ⟨C8_first_transition_amended.1 earlyLeaverGame ("p") (by decide),
   C8_first_transition_amended.2 earlyLeaverLegacy ("p") 0 1000
     (by decide) (by decide)⟩
